import Mathlib

/-!
# ExplainNet — verification of the Topic Analysis Orchestrator core

Shallow embedding of the core algorithms of the ExplainNet backend
(`backend/impact_score_service.py`, `backend/cache_service.py`,
`backend/crud.py`, `backend/pipeline.py`, and the sentiment services),
together with proofs and refutations of the specified properties.

Conventions used throughout:
* Python dictionaries carrying a fixed set of keys become structures;
  an *absent or `None`* dictionary becomes `Option` (`none` covers both the
  Python `None` and the falsy empty dict `{}`, which the source always guards
  with a truthiness test before any key access).
* Python floats are modelled as rationals (`ℚ`) where the source only moves
  them around and compares them, and as reals (`ℝ`) where the source computes
  with `math.log10`.
* A fallible Python call is an `Except PyErr` value supplied by an
  environment record; `try/except` becomes a `match` on that value.
-/

namespace ExplainNet

/-! ## Python string primitives

ASCII models of `str.upper()`, `str.lower()` and `str.strip()` as used by the
source on sentiment labels and topic names. -/

/-- One character of Python `str.upper()` (ASCII range, as the sentiment labels
and topic names handled by the source are ASCII). -/
def upChar (c : Char) : Char :=
  if 97 ≤ c.toNat ∧ c.toNat ≤ 122 then Char.ofNat (c.toNat - 32) else c

/-- One character of Python `str.lower()` (ASCII range). -/
def lowChar (c : Char) : Char :=
  if 65 ≤ c.toNat ∧ c.toNat ≤ 90 then Char.ofNat (c.toNat + 32) else c

/-- Python `s.upper()`. -/
def pyUpper (s : String) : String := String.mk (s.data.map upChar)

/-- Python `s.lower()`. -/
def pyLower (s : String) : String := String.mk (s.data.map lowChar)

/-- Python `s.strip()`: drop whitespace from both ends. -/
def pyStrip (s : String) : String :=
  String.mk (((s.data.dropWhile Char.isWhitespace).reverse.dropWhile
    Char.isWhitespace).reverse)

theorem upChar_idem (c : Char) : upChar (upChar c) = upChar c := by
  unfold upChar
  split
  case isTrue h =>
    rcases h with ⟨h1, h2⟩
    generalize c.toNat = n at h1 h2
    interval_cases n <;> decide
  case isFalse h => rfl

theorem pyUpper_idem (s : String) : pyUpper (pyUpper s) = pyUpper s := by
  show String.mk ((s.data.map upChar).map upChar) = String.mk (s.data.map upChar)
  rw [List.map_map]
  congr 1
  exact List.map_congr_left fun c _ => upChar_idem c

theorem pyUpper_data_length (s : String) :
    (pyUpper s).data.length = s.data.length := by
  show (s.data.map upChar).length = s.data.length
  exact List.length_map _ _

theorem pyUpper_eq_empty_iff (s : String) : pyUpper s = "" ↔ s = "" := by
  constructor
  · intro h
    have hl := pyUpper_data_length s
    rw [h] at hl
    cases s with
    | mk data =>
      cases data with
      | nil => rfl
      | cons a l => simp at hl
  · intro h; rw [h]; rfl

/-! ## Sentiment dictionaries and the fusion engine

`impact_score_service.determine_overall_sentiment` receives the dictionaries
returned by `huggingface_service.analyze_sentiment` and
`gemini_service.analyze_sentiment_advanced`.  Only the `model_name`,
`sentiment` and `confidence` keys take part in fusion, scoring and
persistence, so the dictionary is modelled by the structure below; an absent
dictionary (Python `None` or `{}`) is `Option.none` at the use sites. -/

structure SentDict where
  model_name : String := ""
  sentiment : Option String
  confidence : Option ℚ
deriving Repr, DecidableEq

/-- Model of `d.get("sentiment") if d and d.get("sentiment") else None`: the label of a
possibly-absent model dictionary, with Python truthiness (an empty string is
falsy and counts as no label). -/
def getLabel : Option SentDict → Option String
  | none => none
  | some d =>
    match d.sentiment with
    | none => none
    | some s => if s = "" then none else some s

/-- Model of `d.get("confidence", 0) if d else 0`, the confidence access used by
`determine_overall_sentiment`. -/
def getConf0 : Option SentDict → ℚ
  | none => 0
  | some d => d.confidence.getD 0

/-- Model of `impact_score_service.determine_overall_sentiment(hf_sentiment,
gemini_sentiment)`: labels are extracted with truthiness defaults, uppercased,
then compared; on disagreement the higher confidence wins with `≥` keeping the
first (HuggingFace/VADER) record. -/
def determine_overall_sentiment (hf gem : Option SentDict) :
    Option String × Bool :=
  let hfU := (getLabel hf).map pyUpper
  let gemU := (getLabel gem).map pyUpper
  if hfU = none ∧ gemU = none then (none, false)
  else if hfU ≠ none ∧ hfU = gemU then (hfU, true)
  else if hfU = none ∧ gemU ≠ none then (gemU, false)
  else if gemU = none ∧ hfU ≠ none then (hfU, false)
  else if getConf0 hf ≥ getConf0 gem then (hfU, false)
  else (gemU, false)

/-- The fusion table of spec §4.3, stated over the labels that are actually
*present* (non-null, non-empty) in the two records, which is what the source
tests: zero present labels → `(none, false)` (the null label is rendered
`UNKNOWN` downstream by `crud.create_sentiment`); one present label → that
label, no agreement; equal labels → agreement; differing labels → the
higher-confidence record wins and a tie keeps the first record. -/
def fuseSpec (hfLab : Option String) (hfConf : ℚ) (gemLab : Option String)
    (gemConf : ℚ) : Option String × Bool :=
  match hfLab, gemLab with
  | none, none => (none, false)
  | some a, none => (some a, false)
  | none, some b => (some b, false)
  | some a, some b =>
    if a = b then (some a, true)
    else if hfConf ≥ gemConf then (some a, false)
    else (some b, false)

theorem determine_overall_sentiment_eq_fuseSpec (hf gem : Option SentDict) :
    determine_overall_sentiment hf gem =
      fuseSpec ((getLabel hf).map pyUpper) (getConf0 hf)
        ((getLabel gem).map pyUpper) (getConf0 gem) := by
  unfold determine_overall_sentiment fuseSpec
  rcases ha : (getLabel hf).map pyUpper with _ | a <;>
    rcases hb : (getLabel gem).map pyUpper with _ | b
  · simp
  · simp
  · simp
  · by_cases hab : a = b
    · subst hab; simp
    · by_cases hc : getConf0 hf ≥ getConf0 gem <;>
        simp [hab, hc, Option.some.injEq]

/-- C2 (counterexample): the claim's fusion table demands that two records
whose labels are both the literal `UNKNOWN` (zero non-UNKNOWN labels) fuse to
`(UNKNOWN, false)`, but `determine_overall_sentiment` treats the literal
string `"UNKNOWN"` like any other label: two equal `UNKNOWN` labels agree and
the function returns `(UNKNOWN, true)`. -/
theorem claim_C2_counterexample :
    determine_overall_sentiment
        (some { model_name := "vader", sentiment := some "UNKNOWN",
                confidence := some (9/10) })
        (some { model_name := "gemini", sentiment := some "UNKNOWN",
                confidence := some (4/5) })
      = (some "UNKNOWN", true) ∧
    ((some "UNKNOWN", true) : Option String × Bool) ≠ (some "UNKNOWN", false) := by
  constructor
  · decide
  · decide

/-- C2 (amended): the fusion function satisfies the spec's table once
"non-UNKNOWN label" is read as "present label" (non-null, non-empty — the
condition the source actually tests); a record whose label is the literal
string `UNKNOWN` counts as a present label, and the zero-present case returns
a null label (rendered `UNKNOWN` downstream) with `agreement = false`.
Labels are compared after uppercasing; on disagreement the higher-confidence
record wins and a confidence tie keeps the first record's label. -/
theorem claim_C2_fusion_table (hf gem : Option SentDict) :
    determine_overall_sentiment hf gem =
      fuseSpec ((getLabel hf).map pyUpper) (getConf0 hf)
        ((getLabel gem).map pyUpper) (getConf0 gem) :=
  determine_overall_sentiment_eq_fuseSpec hf gem

/-- The mapped label of a record dictionary, spelled out. -/
theorem getLabel_some_map (mn : String) (s : String) (c : Option ℚ) :
    (getLabel (some ⟨mn, some s, c⟩)).map pyUpper
      = if s = "" then none else some (pyUpper s) := by
  unfold getLabel
  by_cases h : s = "" <;> simp [h]

/-- C10: fusion is case-insensitive in its label inputs — replacing either
record's label by a variant with the same uppercasing leaves the returned
`(sentiment, agreement)` pair unchanged — and every label it returns is a
fixed point of `pyUpper` (upper-case). -/
theorem claim_C10_case_insensitive :
    (∀ (mn mn' s s' : String) (c : Option ℚ) (gem : Option SentDict),
      pyUpper s = pyUpper s' →
      determine_overall_sentiment
          (some { model_name := mn, sentiment := some s, confidence := c }) gem =
        determine_overall_sentiment
          (some { model_name := mn', sentiment := some s', confidence := c }) gem) ∧
    (∀ (mn mn' s s' : String) (c : Option ℚ) (hf : Option SentDict),
      pyUpper s = pyUpper s' →
      determine_overall_sentiment hf
          (some { model_name := mn, sentiment := some s, confidence := c }) =
        determine_overall_sentiment hf
          (some { model_name := mn', sentiment := some s', confidence := c })) ∧
    (∀ (hf gem : Option SentDict) (l : String),
      (determine_overall_sentiment hf gem).1 = some l → pyUpper l = l) := by
  have hlab : ∀ (mn mn' s s' : String) (c : Option ℚ), pyUpper s = pyUpper s' →
      (getLabel (some ⟨mn, some s, c⟩)).map pyUpper
        = (getLabel (some ⟨mn', some s', c⟩)).map pyUpper := by
    intro mn mn' s s' c h
    rw [getLabel_some_map, getLabel_some_map]
    have hiff : s = "" ↔ s' = "" := by
      constructor
      · intro hs
        rw [← pyUpper_eq_empty_iff, ← h, hs]; rfl
      · intro hs
        rw [← pyUpper_eq_empty_iff, h, hs]; rfl
    by_cases hs : s = ""
    · simp [hs, hiff.mp hs]
    · have hs' : ¬s' = "" := fun h2 => hs (hiff.mpr h2)
      simp [hs, hs', h]
  have hconf : ∀ (mn : String) (s : String) (c : Option ℚ),
      getConf0 (some ⟨mn, some s, c⟩) = c.getD 0 := fun _ _ _ => rfl
  refine ⟨?_, ?_, ?_⟩
  · intro mn mn' s s' c gem h
    rw [determine_overall_sentiment_eq_fuseSpec,
      determine_overall_sentiment_eq_fuseSpec, hlab mn mn' s s' c h,
      hconf, hconf]
  · intro mn mn' s s' c hf h
    rw [determine_overall_sentiment_eq_fuseSpec,
      determine_overall_sentiment_eq_fuseSpec, hlab mn mn' s s' c h,
      hconf, hconf]
  · intro hf gem l hl
    rw [determine_overall_sentiment_eq_fuseSpec] at hl
    have hup : ∀ t : Option SentDict, ∀ u : String,
        (getLabel t).map pyUpper = some u → pyUpper u = u := by
      intro t u ht
      rcases h2 : getLabel t with _ | v
      · rw [h2] at ht; simp at ht
      · rw [h2] at ht
        simp only [Option.map_some'] at ht
        have hv : pyUpper v = u := by
          exact Option.some.inj ht
        rw [← hv]
        exact pyUpper_idem v
    rcases ha : (getLabel hf).map pyUpper with _ | a <;>
      rcases hb : (getLabel gem).map pyUpper with _ | b <;>
        rw [ha, hb] at hl
    · simp [fuseSpec] at hl
    · simp only [fuseSpec] at hl
      have : b = l := by simpa using hl
      exact this ▸ hup gem b hb
    · simp only [fuseSpec] at hl
      have : a = l := by simpa using hl
      exact this ▸ hup hf a ha
    · simp only [fuseSpec] at hl
      by_cases hab : a = b
      · rw [if_pos hab] at hl
        have : a = l := by simpa using hl
        exact this ▸ hup hf a ha
      · rw [if_neg hab] at hl
        by_cases hc : getConf0 hf ≥ getConf0 gem
        · rw [if_pos hc] at hl
          have : a = l := by simpa using hl
          exact this ▸ hup hf a ha
        · rw [if_neg hc] at hl
          have : b = l := by simpa using hl
          exact this ▸ hup gem b hb

/-- C10 witness: the claim's own example — records labelled `positive` and
`POSITIVE` fuse identically to two `POSITIVE` records, namely to
`(POSITIVE, true)`. -/
theorem claim_C10_witness :
    pyUpper "positive" = pyUpper "POSITIVE" ∧
    determine_overall_sentiment
        (some { model_name := "vader", sentiment := some "positive",
                confidence := some (9/10) })
        (some { model_name := "gemini", sentiment := some "POSITIVE",
                confidence := some (4/5) })
      = determine_overall_sentiment
        (some { model_name := "vader", sentiment := some "POSITIVE",
                confidence := some (9/10) })
        (some { model_name := "gemini", sentiment := some "POSITIVE",
                confidence := some (4/5) }) ∧
    determine_overall_sentiment
        (some { model_name := "vader", sentiment := some "positive",
                confidence := some (9/10) })
        (some { model_name := "gemini", sentiment := some "POSITIVE",
                confidence := some (4/5) })
      = (some "POSITIVE", true) :=
  ⟨by decide,
   claim_C10_case_insensitive.1 "vader" "vader" "positive" "POSITIVE"
     (some (9/10)) _ (by decide),
   by decide⟩

/-! ## The TTL cache (`cache_service.InMemoryCache`)

The cache's dict `self._cache : key ↦ (value, expiry_time)` is modelled as a
function into `Option`; `time.time()` instants are rationals supplied
explicitly.  The mutex only serialises access and has no sequential
behaviour to model. -/

/-- One stored slot of `InMemoryCache._cache`: `(value, expiry_time)`. -/
structure CacheEntry (V : Type) where
  value : V
  expiry : ℚ

/-- The dict `InMemoryCache._cache`. -/
def CacheStore (V : Type) := String → Option (CacheEntry V)

/-- Model of `InMemoryCache.set(key, value, ttl_seconds)` executed at instant `now`:
stores the value with `expiry_time = time.time() + ttl_seconds`. -/
def cacheSet {V : Type} (st : CacheStore V) (key : String) (v : V)
    (ttlSeconds : ℤ) (now : ℚ) : CacheStore V :=
  fun k => if k = key then some ⟨v, now + ttlSeconds⟩ else st k

/-- Model of `InMemoryCache.get(key)` executed at instant `now`: returns the stored
value unless the key is absent or `now > expiry_time`; an expired entry is
deleted on the spot.  Result: the returned value and the store afterwards. -/
def cacheGet {V : Type} (st : CacheStore V) (key : String) (now : ℚ) :
    Option V × CacheStore V :=
  match st key with
  | none => (none, st)
  | some e =>
    if now > e.expiry then
      (none, fun k => if k = key then none else st k)
    else
      (some e.value, st)

/-- C9: for every key, value and positive ttl, a `get` strictly after the
expiry instant `now + ttl` returns `none` and lazily deletes the entry, and a
`get` before the expiry instant returns the stored value. -/
theorem claim_C9_cache_ttl {V : Type} (st : CacheStore V) (k : String) (v : V)
    (ttl : ℤ) (now t : ℚ) (httl : 0 < ttl) :
    (t > now + ttl →
      (cacheGet (cacheSet st k v ttl now) k t).1 = none ∧
      (cacheGet (cacheSet st k v ttl now) k t).2 k = none) ∧
    (t < now + ttl →
      (cacheGet (cacheSet st k v ttl now) k t).1 = some v) := by
  have hk : cacheSet st k v ttl now k = some ⟨v, now + ttl⟩ := by
    unfold cacheSet; simp
  constructor
  · intro ht
    unfold cacheGet
    rw [hk]
    simp only [if_pos ht]
    constructor <;> simp
  · intro ht
    unfold cacheGet
    rw [hk]
    have : ¬ t > now + ttl := not_lt.mpr (le_of_lt ht)
    simp only [if_neg this]

/-- C9 witness: `set("topic_search:ev", summary, 900)` at instant 0 on the
empty cache; a `get` at instant 901 misses and deletes, a `get` at instant 10
hits. -/
theorem claim_C9_cache_ttl_witness :
    ((0 : ℤ) < 900) ∧
    (cacheGet (cacheSet (fun _ => none) "topic_search:ev" (37 : ℕ) 900 0)
        "topic_search:ev" 901).1 = none ∧
    (cacheGet (cacheSet (fun _ => none) "topic_search:ev" (37 : ℕ) 900 0)
        "topic_search:ev" 901).2 "topic_search:ev" = none ∧
    (cacheGet (cacheSet (fun _ => none) "topic_search:ev" (37 : ℕ) 900 0)
        "topic_search:ev" 10).1 = some 37 := by
  have h := claim_C9_cache_ttl (fun _ => none) "topic_search:ev" (37 : ℕ)
    900 0 901 (by norm_num)
  have h2 := claim_C9_cache_ttl (fun _ => none) "topic_search:ev" (37 : ℕ)
    900 0 10 (by norm_num)
  have ha := h.1 (by norm_num)
  exact ⟨by norm_num, ha.1, ha.2, h2.2 (by norm_num)⟩

/-! ## Python rounding

`round(x, ndigits)` on CPython floats rounds half to even.  The float grid is
abstracted to exact arithmetic; the half-to-even integer rounding is modelled
exactly. -/

/-- Round half to even: the integer nearest to `x`, ties to the even one. -/
def rndHalfEven {α : Type} [LinearOrderedField α] [FloorRing α] (x : α) : ℤ :=
  if Int.fract x = 1/2 then 2 * round (x/2) else round x

/-- Python `round(x, p)` for `p` decimal digits. -/
def pyRoundTo {α : Type} [LinearOrderedField α] [FloorRing α] (p : ℕ)
    (x : α) : α :=
  ((rndHalfEven ((10:α)^p * x) : ℤ) : α) / (10:α)^p

theorem rndHalfEven_bounds {α : Type} [LinearOrderedField α] [FloorRing α]
    (x : α) : ⌊x⌋ ≤ rndHalfEven x ∧ rndHalfEven x ≤ ⌈x⌉ := by
  unfold rndHalfEven
  split
  case isTrue h =>
    have hx : x = (⌊x⌋ : α) + 1/2 := by
      have := Int.floor_add_fract x
      rw [h] at this
      linarith
    rcases Int.even_or_odd ⌊x⌋ with ⟨k, hk⟩ | ⟨k, hk⟩
    · have hx2 : x / 2 = (k : α) + 1/4 := by
        rw [hx, hk]; push_cast; ring
      have hr : round (x/2) = k := by
        rw [round_eq, hx2]
        have h2 : (k : α) + 1/4 + 1/2 = (k : α) + 3/4 := by ring
        rw [h2, Int.floor_int_add]
        have h34 : ⌊(3/4 : α)⌋ = 0 := by
          rw [Int.floor_eq_zero_iff]
          constructor <;> norm_num
        rw [h34, add_zero]
      rw [hr]
      have hfc := Int.floor_le_ceil x
      constructor
      · omega
      · omega
    · have hx2 : x / 2 = (k : α) + 3/4 := by
        rw [hx, hk]; push_cast; ring
      have hr : round (x/2) = k + 1 := by
        rw [round_eq, hx2]
        have h2 : (k : α) + 3/4 + 1/2 = ((k + 1 : ℤ) : α) + 1/4 := by
          push_cast; ring
        rw [h2, Int.floor_int_add]
        have h14 : ⌊(1/4 : α)⌋ = 0 := by
          rw [Int.floor_eq_zero_iff]
          constructor <;> norm_num
        rw [h14, add_zero]
      rw [hr]
      have hlt : (⌊x⌋ : α) < x := by linarith [hx]
      have hc : ⌊x⌋ < ⌈x⌉ := Int.lt_ceil.mpr hlt
      constructor
      · omega
      · omega
  case isFalse h =>
    rw [round_eq]
    constructor
    · exact Int.floor_le_floor (by linarith)
    · rw [Int.floor_le_iff]
      push_cast
      have := Int.le_ceil x
      linarith

theorem pyRoundTo_mem {α : Type} [LinearOrderedField α] [FloorRing α]
    (p : ℕ) (x : α) (lo hi : ℤ) (h0 : (lo : α) ≤ x) (h1 : x ≤ (hi : α)) :
    (lo : α) ≤ pyRoundTo p x ∧ pyRoundTo p x ≤ (hi : α) := by
  unfold pyRoundTo
  have hp : (0:α) < (10:α)^p := by positivity
  have hb := rndHalfEven_bounds ((10:α)^p * x)
  have hfl : (lo * (10:ℤ)^p : ℤ) ≤ ⌊(10:α)^p * x⌋ := by
    apply Int.le_floor.mpr
    push_cast
    calc (lo : α) * (10:α)^p ≤ x * (10:α)^p := by
          apply mul_le_mul_of_nonneg_right h0 (le_of_lt hp)
      _ = (10:α)^p * x := by ring
  have hce : ⌈(10:α)^p * x⌉ ≤ (hi * (10:ℤ)^p : ℤ) := by
    apply Int.ceil_le.mpr
    push_cast
    calc (10:α)^p * x = x * (10:α)^p := by ring
      _ ≤ (hi:α) * (10:α)^p := by
          apply mul_le_mul_of_nonneg_right h1 (le_of_lt hp)
  have hlo : (lo * (10:ℤ)^p : ℤ) ≤ rndHalfEven ((10:α)^p * x) := le_trans hfl hb.1
  have hhi : rndHalfEven ((10:α)^p * x) ≤ (hi * (10:ℤ)^p : ℤ) := le_trans hb.2 hce
  constructor
  · rw [le_div_iff hp]
    calc (lo:α) * (10:α)^p = ((lo * (10:ℤ)^p : ℤ) : α) := by push_cast; ring
      _ ≤ _ := by exact_mod_cast hlo
  · rw [div_le_iff hp]
    calc ((rndHalfEven ((10:α)^p * x) : ℤ) : α)
        ≤ ((hi * (10:ℤ)^p : ℤ) : α) := by exact_mod_cast hhi
      _ = (hi:α) * (10:α)^p := by push_cast; ring

/-! ## The impact score calculator (`impact_score_service`)

`math.log10` forces real arithmetic here.  The engagement metrics are the
non-negative integer counts delivered by the video API (`video_data.get(k, 0)`
with a missing key behaving as 0); `published_at` is abstracted to the whole
number of days `(now - pub_date).days` it lies in the past, `none` standing
for a missing or unparseable publish time (both of which the source maps to
boost 1.0). -/

noncomputable def log10 (x : ℝ) : ℝ := Real.logb 10 x

structure VideoMetrics where
  view_count : ℕ
  like_count : ℕ
  comment_count : ℕ
  subscriber_count : ℕ
  published_days_old : Option ℤ

/-- The `sentiment_data` dictionary built by the pipeline:
`{"huggingface": ..., "gemini": ...}`. -/
structure SentimentData where
  huggingface : Option SentDict
  gemini : Option SentDict

/-- The `sentiment_values` mapping `{POSITIVE: 8, NEGATIVE: 2, MIXED: 5,
NEUTRAL: 5}` accessed with `.get(key, 5)`. -/
def sentimentValue (s : String) : ℝ :=
  if s = "POSITIVE" then 8
  else if s = "NEGATIVE" then 2
  else if s = "MIXED" then 5
  else if s = "NEUTRAL" then 5
  else 5

/-- Model of `d.get("confidence", 0.5) if d else 0.0`, the confidence access used by
`map_sentiment_to_score` and `calculate_quality_score`. -/
def getConfHalf : Option SentDict → ℚ
  | none => 0
  | some d => d.confidence.getD (1/2)

/-- The local `avg_confidence` of `map_sentiment_to_score` ("handle case
where only one model has data"). -/
noncomputable def msAvgConfidence (hf gem : Option SentDict) : ℝ :=
  if hf = none then (getConfHalf gem : ℝ)
  else if gem = none then (getConfHalf hf : ℝ)
  else ((getConfHalf hf : ℝ) + (getConfHalf gem : ℝ)) / 2

/-- The local `values` list of `map_sentiment_to_score`: the mapped numeric
values of the labels actually provided, `hf` first. -/
noncomputable def msValues (hf gem : Option SentDict) : List ℝ :=
  ((getLabel hf).map sentimentValue).toList
    ++ ((getLabel gem).map sentimentValue).toList

/-- Model of `impact_score_service.map_sentiment_to_score`. -/
noncomputable def map_sentiment_to_score (hf gem : Option SentDict) : ℝ :=
  if hf = none ∧ gem = none then 0
  else if msValues hf gem = [] then 0
  else min 10 (max 0
    ((msValues hf gem).sum / (msValues hf gem).length
      * msAvgConfidence hf gem))

/-- The local `agreement_score` of `calculate_quality_score` ("agreement
bonus"). -/
noncomputable def qsAgreement (hf gem : Option SentDict) : ℝ :=
  if getLabel hf = none ∧ getLabel gem = none then 0
  else if getLabel hf = none ∨ getLabel gem = none then 4
  else if getLabel hf = getLabel gem then 7
  else 3

/-- The local `avg_confidence` of `calculate_quality_score`. -/
noncomputable def qsAvgConfidence (hf gem : Option SentDict) : ℝ :=
  if hf = none ∧ gem = none then 0
  else if hf = none then (getConfHalf gem : ℝ)
  else if gem = none then (getConfHalf hf : ℝ)
  else ((getConfHalf hf : ℝ) + (getConfHalf gem : ℝ)) / 2

/-- Model of `impact_score_service.calculate_quality_score`. -/
noncomputable def calculate_quality_score (hf gem : Option SentDict) : ℝ :=
  if hf = none ∧ gem = none then 0
  else min 10 (qsAgreement hf gem + qsAvgConfidence hf gem * 3)

/-- Model of `impact_score_service.calculate_recency_boost`, over the day difference
`(now - pub_date).days` (with `none` for a missing/unparseable date). -/
noncomputable def calculate_recency_boost (days_old : Option ℤ) : ℝ :=
  match days_old with
  | none => 1.0
  | some d =>
    if d ≤ 7 then 1.5
    else if d ≤ 30 then 1.3
    else if d ≤ 90 then 1.1
    else 1.0

/-- The inline reach-score block of `calculate_impact_score`. -/
noncomputable def reach_score (views : ℕ) : ℝ :=
  if 0 < views then min 10 (log10 ((views : ℝ) + 1) / 7 * 10) else 0

/-- The inline engagement-score block of `calculate_impact_score`. -/
noncomputable def engagement_score (views likes comments : ℕ) : ℝ :=
  if 0 < views then
    min 5 ((likes : ℝ) / (views : ℝ) * 100)
      + min 5 ((comments : ℝ) / (views : ℝ) * 100)
  else 0

/-- The inline influence-score block of `calculate_impact_score`. -/
noncomputable def influence_score (subscribers : ℕ) : ℝ :=
  if 0 < subscribers then min 10 (log10 ((subscribers : ℝ) + 1) / 7 * 10)
  else 0

/-- The dictionary returned by `calculate_impact_score` (all values already
rounded as in the source). -/
structure ImpactScores where
  impact_score : ℝ
  reach_score : ℝ
  engagement_score : ℝ
  sentiment_score : ℝ
  quality_score : ℝ
  influence_score : ℝ
  recency_boost : ℝ

/-- Model of `hf_sentiment`: `{}` when `sentiment_data is None`, else
`sentiment_data.get("huggingface", {})` (the stored value may itself be
`None`; both map to `none`). -/
def hfOf : Option SentimentData → Option SentDict
  | none => none
  | some sd => sd.huggingface

/-- Model of `gemini_sentiment`, symmetric to `hfOf`. -/
def gemOf : Option SentimentData → Option SentDict
  | none => none
  | some sd => sd.gemini

/-- Model of `impact_score_service.calculate_impact_score(video_data, sentiment_data)`. -/
noncomputable def calculate_impact_score (v : VideoMetrics)
    (sentiment_data : Option SentimentData) : ImpactScores :=
  let hf_sentiment : Option SentDict := hfOf sentiment_data
  let gemini_sentiment : Option SentDict := gemOf sentiment_data
  let reach := reach_score v.view_count
  let engagement := engagement_score v.view_count v.like_count v.comment_count
  let sentiment := map_sentiment_to_score hf_sentiment gemini_sentiment
  let quality := calculate_quality_score hf_sentiment gemini_sentiment
  let influence := influence_score v.subscriber_count
  let base_impact :=
    reach * 0.25 + engagement * 0.30 + sentiment * 0.20 + quality * 0.15
      + influence * 0.10
  let recency_boost := calculate_recency_boost v.published_days_old
  let final_impact := min 10 (base_impact * recency_boost)
  { impact_score := pyRoundTo 1 final_impact
    reach_score := pyRoundTo 1 reach
    engagement_score := pyRoundTo 1 engagement
    sentiment_score := pyRoundTo 1 sentiment
    quality_score := pyRoundTo 1 quality
    influence_score := pyRoundTo 1 influence
    recency_boost := pyRoundTo 2 recency_boost }

/-- The result of `calculate_impact_score`, spelled out. -/
theorem calculate_impact_score_def (v : VideoMetrics)
    (sd : Option SentimentData) :
    calculate_impact_score v sd =
      { impact_score := pyRoundTo 1 (min 10
          ((reach_score v.view_count * 0.25
            + engagement_score v.view_count v.like_count v.comment_count * 0.30
            + map_sentiment_to_score (hfOf sd) (gemOf sd) * 0.20
            + calculate_quality_score (hfOf sd) (gemOf sd) * 0.15
            + influence_score v.subscriber_count * 0.10)
            * calculate_recency_boost v.published_days_old))
        reach_score := pyRoundTo 1 (reach_score v.view_count)
        engagement_score := pyRoundTo 1
          (engagement_score v.view_count v.like_count v.comment_count)
        sentiment_score := pyRoundTo 1
          (map_sentiment_to_score (hfOf sd) (gemOf sd))
        quality_score := pyRoundTo 1
          (calculate_quality_score (hfOf sd) (gemOf sd))
        influence_score := pyRoundTo 1 (influence_score v.subscriber_count)
        recency_boost := pyRoundTo 2
          (calculate_recency_boost v.published_days_old) } := rfl

/-- Validity of a sentiment dictionary's confidence (data-model §3:
`confidence ∈ [0,1]`); vacuous when the dictionary or the key is absent. -/
def confValid : Option SentDict → Prop
  | none => True
  | some d => ∀ c, d.confidence = some c → 0 ≤ c ∧ c ≤ 1

theorem getConfHalf_mem (o : Option SentDict) (h : confValid o) :
    0 ≤ getConfHalf o ∧ getConfHalf o ≤ 1 := by
  cases o with
  | none => simp [getConfHalf]
  | some d =>
    cases hc : d.confidence with
    | none =>
      simp only [getConfHalf, hc, Option.getD]
      norm_num
    | some c =>
      simp only [getConfHalf, hc, Option.getD]
      exact h c hc

theorem sentimentValue_mem (s : String) :
    2 ≤ sentimentValue s ∧ sentimentValue s ≤ 8 := by
  unfold sentimentValue
  split_ifs <;> norm_num

theorem map_sentiment_to_score_mem (hf gem : Option SentDict) :
    0 ≤ map_sentiment_to_score hf gem ∧ map_sentiment_to_score hf gem ≤ 10 := by
  unfold map_sentiment_to_score
  split_ifs with h1 h2
  · norm_num
  · norm_num
  · constructor
    · exact le_min (by norm_num) (le_max_left 0 _)
    · exact min_le_left _ _

theorem qsAgreement_mem (hf gem : Option SentDict) :
    0 ≤ qsAgreement hf gem ∧ qsAgreement hf gem ≤ 7 := by
  unfold qsAgreement
  split_ifs <;> norm_num

theorem qsAvgConfidence_nonneg (hf gem : Option SentDict)
    (hhf : confValid hf) (hgem : confValid gem) :
    0 ≤ qsAvgConfidence hf gem := by
  have hc1' : (0:ℝ) ≤ (getConfHalf hf : ℝ) := by
    exact_mod_cast (getConfHalf_mem hf hhf).1
  have hc2' : (0:ℝ) ≤ (getConfHalf gem : ℝ) := by
    exact_mod_cast (getConfHalf_mem gem hgem).1
  unfold qsAvgConfidence
  split_ifs
  · norm_num
  · exact hc2'
  · exact hc1'
  · linarith

theorem calculate_quality_score_mem (hf gem : Option SentDict)
    (hhf : confValid hf) (hgem : confValid gem) :
    0 ≤ calculate_quality_score hf gem ∧ calculate_quality_score hf gem ≤ 10 := by
  unfold calculate_quality_score
  split_ifs with h1
  · norm_num
  · refine ⟨le_min (by norm_num) ?_, min_le_left _ _⟩
    have hag := (qsAgreement_mem hf gem).1
    have hav := qsAvgConfidence_nonneg hf gem hhf hgem
    have := mul_nonneg hav (by norm_num : (0:ℝ) ≤ 3)
    linarith

theorem reach_score_mem (n : ℕ) : 0 ≤ reach_score n ∧ reach_score n ≤ 10 := by
  unfold reach_score
  split_ifs with h
  · constructor
    · refine le_min (by norm_num) ?_
      have hl : 0 ≤ log10 ((n : ℝ) + 1) := by
        unfold log10
        apply Real.logb_nonneg (by norm_num)
        have : (0:ℝ) ≤ (n : ℝ) := Nat.cast_nonneg n
        linarith
      have hd : (0:ℝ) ≤ log10 ((n : ℝ) + 1) / 7 :=
        div_nonneg hl (by norm_num : (0:ℝ) ≤ 7)
      have := mul_nonneg hd (by norm_num : (0:ℝ) ≤ 10)
      linarith
    · exact min_le_left _ _
  · norm_num

theorem influence_score_mem (n : ℕ) :
    0 ≤ influence_score n ∧ influence_score n ≤ 10 := by
  unfold influence_score
  split_ifs with h
  · constructor
    · refine le_min (by norm_num) ?_
      have hl : 0 ≤ log10 ((n : ℝ) + 1) := by
        unfold log10
        apply Real.logb_nonneg (by norm_num)
        have : (0:ℝ) ≤ (n : ℝ) := Nat.cast_nonneg n
        linarith
      have hd : (0:ℝ) ≤ log10 ((n : ℝ) + 1) / 7 :=
        div_nonneg hl (by norm_num : (0:ℝ) ≤ 7)
      have := mul_nonneg hd (by norm_num : (0:ℝ) ≤ 10)
      linarith
    · exact min_le_left _ _
  · norm_num

theorem engagement_score_mem (views likes comments : ℕ) :
    0 ≤ engagement_score views likes comments ∧
    engagement_score views likes comments ≤ 10 := by
  unfold engagement_score
  split_ifs with h
  · have hv : (0:ℝ) ≤ (views : ℝ) := Nat.cast_nonneg views
    have h1 : (0:ℝ) ≤ (likes : ℝ) / (views : ℝ) * 100 :=
      mul_nonneg (div_nonneg (Nat.cast_nonneg likes) hv) (by norm_num)
    have h2 : (0:ℝ) ≤ (comments : ℝ) / (views : ℝ) * 100 :=
      mul_nonneg (div_nonneg (Nat.cast_nonneg comments) hv) (by norm_num)
    have hm1 : (0:ℝ) ≤ min 5 ((likes : ℝ) / (views : ℝ) * 100) :=
      le_min (by norm_num) h1
    have hm2 : (0:ℝ) ≤ min 5 ((comments : ℝ) / (views : ℝ) * 100) :=
      le_min (by norm_num) h2
    have hu1 : min 5 ((likes : ℝ) / (views : ℝ) * 100) ≤ 5 := min_le_left _ _
    have hu2 : min 5 ((comments : ℝ) / (views : ℝ) * 100) ≤ 5 := min_le_left _ _
    constructor
    · linarith
    · linarith
  · norm_num

theorem calculate_recency_boost_mem (d : Option ℤ) :
    1 ≤ calculate_recency_boost d ∧ calculate_recency_boost d ≤ 1.5 := by
  cases d with
  | none =>
    simp only [calculate_recency_boost]
    norm_num
  | some days =>
    simp only [calculate_recency_boost]
    split_ifs <;> norm_num

theorem pyRound1_mem_0_10 (x : ℝ) (h0 : 0 ≤ x) (h1 : x ≤ 10) :
    0 ≤ pyRoundTo 1 x ∧ pyRoundTo 1 x ≤ 10 := by
  have := pyRoundTo_mem 1 x 0 10 (by exact_mod_cast h0) (by exact_mod_cast h1)
  constructor
  · exact_mod_cast this.1
  · exact_mod_cast this.2

/-- C1: for every video metrics dictionary (any non-negative counts, any
publish time) and any sentiment data — including none — with valid
confidences, `calculate_impact_score` returns an `impact_score` in `[0, 10]`,
and each of the five components (reach, engagement, sentiment, quality,
influence) also lies in `[0, 10]`. -/
theorem claim_C1_impact_bounds (v : VideoMetrics) (sd : Option SentimentData)
    (hhf : confValid (hfOf sd)) (hgem : confValid (gemOf sd)) :
    (0 ≤ (calculate_impact_score v sd).impact_score ∧
      (calculate_impact_score v sd).impact_score ≤ 10) ∧
    (0 ≤ (calculate_impact_score v sd).reach_score ∧
      (calculate_impact_score v sd).reach_score ≤ 10) ∧
    (0 ≤ (calculate_impact_score v sd).engagement_score ∧
      (calculate_impact_score v sd).engagement_score ≤ 10) ∧
    (0 ≤ (calculate_impact_score v sd).sentiment_score ∧
      (calculate_impact_score v sd).sentiment_score ≤ 10) ∧
    (0 ≤ (calculate_impact_score v sd).quality_score ∧
      (calculate_impact_score v sd).quality_score ≤ 10) ∧
    (0 ≤ (calculate_impact_score v sd).influence_score ∧
      (calculate_impact_score v sd).influence_score ≤ 10) := by
  have hr := reach_score_mem v.view_count
  have he := engagement_score_mem v.view_count v.like_count v.comment_count
  have hs := map_sentiment_to_score_mem (hfOf sd) (gemOf sd)
  have hq := calculate_quality_score_mem (hfOf sd) (gemOf sd) hhf hgem
  have hi := influence_score_mem v.subscriber_count
  have hb := calculate_recency_boost_mem v.published_days_old
  have hbase0 : 0 ≤ reach_score v.view_count * 0.25
      + engagement_score v.view_count v.like_count v.comment_count * 0.30
      + map_sentiment_to_score (hfOf sd) (gemOf sd) * 0.20
      + calculate_quality_score (hfOf sd) (gemOf sd) * 0.15
      + influence_score v.subscriber_count * 0.10 := by
    have := hr.1; have := he.1; have := hs.1; have := hq.1; have := hi.1
    linarith
  have hboost0 : (0:ℝ) ≤ calculate_recency_boost v.published_days_old := by
    linarith [hb.1]
  have hfin0 : (0:ℝ) ≤ min 10 ((reach_score v.view_count * 0.25
      + engagement_score v.view_count v.like_count v.comment_count * 0.30
      + map_sentiment_to_score (hfOf sd) (gemOf sd) * 0.20
      + calculate_quality_score (hfOf sd) (gemOf sd) * 0.15
      + influence_score v.subscriber_count * 0.10)
      * calculate_recency_boost v.published_days_old) :=
    le_min (by norm_num) (mul_nonneg hbase0 hboost0)
  have hfin10 : min 10 ((reach_score v.view_count * 0.25
      + engagement_score v.view_count v.like_count v.comment_count * 0.30
      + map_sentiment_to_score (hfOf sd) (gemOf sd) * 0.20
      + calculate_quality_score (hfOf sd) (gemOf sd) * 0.15
      + influence_score v.subscriber_count * 0.10)
      * calculate_recency_boost v.published_days_old) ≤ 10 :=
    min_le_left _ _
  rw [calculate_impact_score_def]
  exact ⟨pyRound1_mem_0_10 _ hfin0 hfin10,
    pyRound1_mem_0_10 _ hr.1 hr.2,
    pyRound1_mem_0_10 _ he.1 he.2,
    pyRound1_mem_0_10 _ hs.1 hs.2,
    pyRound1_mem_0_10 _ hq.1 hq.2,
    pyRound1_mem_0_10 _ hi.1 hi.2⟩

/-- C1 witness: the bounds at a concrete input (an unwatched video with no
sentiment data). -/
theorem claim_C1_impact_bounds_witness :
    (0 ≤ (calculate_impact_score ⟨0, 0, 0, 0, none⟩ none).impact_score ∧
      (calculate_impact_score ⟨0, 0, 0, 0, none⟩ none).impact_score ≤ 10) ∧
    (0 ≤ (calculate_impact_score ⟨0, 0, 0, 0, none⟩ none).reach_score ∧
      (calculate_impact_score ⟨0, 0, 0, 0, none⟩ none).reach_score ≤ 10) ∧
    (0 ≤ (calculate_impact_score ⟨0, 0, 0, 0, none⟩ none).engagement_score ∧
      (calculate_impact_score ⟨0, 0, 0, 0, none⟩ none).engagement_score ≤ 10) ∧
    (0 ≤ (calculate_impact_score ⟨0, 0, 0, 0, none⟩ none).sentiment_score ∧
      (calculate_impact_score ⟨0, 0, 0, 0, none⟩ none).sentiment_score ≤ 10) ∧
    (0 ≤ (calculate_impact_score ⟨0, 0, 0, 0, none⟩ none).quality_score ∧
      (calculate_impact_score ⟨0, 0, 0, 0, none⟩ none).quality_score ≤ 10) ∧
    (0 ≤ (calculate_impact_score ⟨0, 0, 0, 0, none⟩ none).influence_score ∧
      (calculate_impact_score ⟨0, 0, 0, 0, none⟩ none).influence_score ≤ 10) :=
  claim_C1_impact_bounds ⟨0, 0, 0, 0, none⟩ none trivial trivial

/-! ## The rate-limited batch processor (`analyze_topic`, article section)

`process_article_with_retry` (pipeline.py, defined inside `analyze_topic`)
carries the per-item retry policy; the surrounding loop chunks the article
list into batches of 5, runs one batch jointly (`asyncio.gather`) and sleeps
2 s between batches only.  The Gemini summarize/relevance collaborators are
supplied per attempt as `Except` outcomes; the model records which
`asyncio.sleep` backoff waits the worker performs. -/

/-- Whether `pat` is a prefix of `s` (helper for Python's `in` on strings). -/
def seqStartsWith {α : Type} [DecidableEq α] : List α → List α → Bool
  | _, [] => true
  | [], _ :: _ => false
  | a :: s, b :: p => a = b && seqStartsWith s p

/-- Whether `pat` occurs contiguously in `s`. -/
def seqContains {α : Type} [DecidableEq α] : List α → List α → Bool
  | [], pat => seqStartsWith [] pat
  | a :: rest, pat => seqStartsWith (a :: rest) pat || seqContains rest pat

/-- Python `sub in s` on strings. -/
def pyContains (s sub : String) : Bool := seqContains s.data sub.data

/-- The quota-exceeded test of `process_article_with_retry`:
`"429" in error_str or "quota" in error_str.lower()`. -/
def isQuotaSignal (e : String) : Bool :=
  pyContains e "429" || pyContains (pyLower e) "quota"

/-- The two article fields `process_article_with_retry` fills in. -/
structure ArticleOut where
  gemini_justification : Option String
  relevance_score : Option ℚ
deriving Repr, DecidableEq

/-- Collaborator outcomes for one article, per attempt number. -/
structure ArticleEnv where
  summarize : ℕ → Except String String
  relevance : ℕ → Except String ℚ

/-- Model of `pipeline.process_article_with_retry` with `max_retries = 2`: the
attempt-0 summarize outcome; on a quota signal at attempt 0 a
`(2 ** 0) * 10 = 10` second sleep and one retry; on a quota signal at the
final attempt (`attempt < max_retries - 1` fails) the degraded placeholder;
a non-quota error breaks immediately with its own placeholder.  Returns the
article fields and the list of backoff waits performed (in seconds). -/
def process_article_with_retry (env : ArticleEnv) : ArticleOut × List ℚ :=
  match env.summarize 0 with
  | .ok g =>
    let rel : ℚ := match env.relevance 0 with | .ok r => r | .error _ => 50
    (⟨some g, some rel⟩, [])
  | .error e0 =>
    if isQuotaSignal e0 then
      match env.summarize 1 with
      | .ok g =>
        let rel : ℚ := match env.relevance 1 with | .ok r => r | .error _ => 50
        (⟨some g, some rel⟩, [10])
      | .error e1 =>
        if isQuotaSignal e1 then
          (⟨some "Summary unavailable (rate limit)", some 50⟩, [10])
        else
          (⟨some ("Summary unavailable: " ++ e1), some 50⟩, [10])
    else
      (⟨some ("Summary unavailable: " ++ e0), some 50⟩, [])

/-- The chunking `for i in range(0, len(all_articles), batch_size)` with
`batch = all_articles[i:i+batch_size]`, `batch_size = 5`. -/
def articleBatches {α : Type} : List α → List (List α)
  | [] => []
  | a :: t => (a :: t).take 5 :: articleBatches ((a :: t).drop 5)
termination_by l => l.length
decreasing_by
  simp only [List.length_drop, List.length_cons]
  omega

/-- The batched run over articles `0, …, n-1`: each batch is mapped jointly
(`asyncio.gather`), batches in order. -/
def processArticlesBatched (envs : ℕ → ArticleEnv) (n : ℕ) :
    List (ArticleOut × List ℚ) :=
  ((articleBatches (List.range n)).map
    (List.map fun i => process_article_with_retry (envs i))).flatten

/-- The 2-second sleeps of the batch loop: one for every batch index `b`
with `5*b + 5 < n` (`if i + batch_size < len(all_articles)`). -/
def interBatchDelays (n : ℕ) : List ℚ :=
  (List.range ((n + 4) / 5)).filterMap
    fun b => if 5*b + 5 < n then some 2 else none

theorem articleBatches_step {α : Type} (a : α) (t : List α) :
    articleBatches (a :: t)
      = (a :: t).take 5 :: articleBatches ((a :: t).drop 5) := by
  rw [articleBatches.eq_def]

theorem articleBatches_flatten {α : Type} : ∀ l : List α,
    (articleBatches l).flatten = l
  | [] => by rw [articleBatches.eq_def]; rfl
  | a :: t => by
    rw [articleBatches_step]
    simp only [List.flatten_cons, articleBatches_flatten ((a :: t).drop 5)]
    exact List.take_append_drop 5 (a :: t)
termination_by l => l.length
decreasing_by
  simp only [List.length_drop, List.length_cons]
  omega

theorem range_filterMap_if_lt (m c : ℕ) :
    (List.range m).filterMap
        (fun b => if b < c then some (2:ℚ) else none)
      = List.replicate (min m c) 2 := by
  induction m with
  | zero => simp
  | succ k ih =>
    rw [List.range_succ, List.filterMap_append, ih]
    by_cases h : k < c
    · have hm : min (k+1) c = min k c + 1 := by omega
      rw [hm, List.replicate_succ']
      simp [h]
    · have hm : min (k+1) c = min k c := by omega
      rw [hm]
      simp [h]

theorem interBatchDelays_eq (n : ℕ) :
    interBatchDelays n = List.replicate ((n + 4) / 5 - 1) 2 := by
  unfold interBatchDelays
  have hcong : ∀ b ∈ List.range ((n + 4) / 5),
      (if 5*b + 5 < n then some (2:ℚ) else none)
        = (if b < (n + 4) / 5 - 1 then some (2:ℚ) else none) := by
    intro b hb
    have hb' : b < (n + 4) / 5 := List.mem_range.mp hb
    by_cases h : 5*b + 5 < n
    · rw [if_pos h, if_pos (by omega)]
    · rw [if_neg h, if_neg (by omega)]
  rw [List.filterMap_congr hcong, range_filterMap_if_lt]
  congr 1
  omega

/-- C8 (amended): on a quota-exceeded failure `process_article_with_retry`
sleeps 10 seconds and retries once; with the retry ceiling of 2 attempts the
20-second step of the `(2 ** attempt) * 10` schedule is unreachable, so the
performed backoff waits are always `[]` or `[10]`; after the final quota
failure the article is marked with the degraded placeholder (summary
`"Summary unavailable (rate limit)"`, relevance 50) instead of failing the
batch; batches of five articles are mapped jointly, and the 2-second
inter-batch delay occurs exactly between consecutive batches. -/
theorem claim_C8_retry_and_batch :
    (∀ (env : ArticleEnv) (e0 e1 : String), env.summarize 0 = .error e0 →
      isQuotaSignal e0 = true → env.summarize 1 = .error e1 →
      isQuotaSignal e1 = true →
      process_article_with_retry env
        = (⟨some "Summary unavailable (rate limit)", some 50⟩, [10])) ∧
    (∀ env : ArticleEnv,
      (process_article_with_retry env).2 = [] ∨
      (process_article_with_retry env).2 = [10]) ∧
    (∀ (envs : ℕ → ArticleEnv) (n : ℕ),
      processArticlesBatched envs n
        = (List.range n).map fun i => process_article_with_retry (envs i)) ∧
    (∀ n : ℕ, interBatchDelays n = List.replicate ((n + 4) / 5 - 1) 2) := by
  refine ⟨?_, ?_, ?_, interBatchDelays_eq⟩
  · intro env e0 e1 h0 hq0 h1 hq1
    simp [process_article_with_retry, h0, hq0, h1, hq1]
  · intro env
    unfold process_article_with_retry
    cases h0 : env.summarize 0 with
    | ok g => simp
    | error e0 =>
      cases hq : isQuotaSignal e0 with
      | false => simp [hq]
      | true =>
        cases h1 : env.summarize 1 with
        | ok g => simp [hq, h1]
        | error e1 => cases hq1 : isQuotaSignal e1 <;> simp [hq, h1, hq1]
  · intro envs n
    unfold processArticlesBatched
    rw [← List.map_flatten, articleBatches_flatten]

/-- C8 witness: a summarizer that always fails with a `429` quota error
produces the placeholder after one 10-second wait; 12 articles make three
batches with two 2-second inter-batch delays. -/
theorem claim_C8_retry_and_batch_witness :
    process_article_with_retry
        ⟨fun _ => .error "429", fun _ => .ok 50⟩
      = (⟨some "Summary unavailable (rate limit)", some 50⟩, [10]) ∧
    interBatchDelays 12 = [2, 2] :=
  ⟨claim_C8_retry_and_batch.1 ⟨fun _ => .error "429", fun _ => .ok 50⟩
      "429" "429" rfl (by decide) rfl (by decide),
   by rw [claim_C8_retry_and_batch.2.2.2 12]; rfl⟩

/-- C8 (counterexample): the claim announces backoff waits of 10 *and then
20* seconds; under a persistently quota-failing summarizer the code performs
only the single 10-second wait. -/
theorem claim_C8_counterexample :
    (process_article_with_retry
        ⟨fun _ => .error "429", fun _ => .ok 50⟩).2 = [10] ∧
    ([10] : List ℚ) ≠ [10, 20] := by
  constructor
  · rfl
  · decide

/-! ## Sentiment services and persistence

The model-inference collaborators (the VADER library call, the Gemini
generate/parse round trip) are the fallible externals; the service wrappers
in `huggingface_service.py` / `gemini_service.py` catch their exceptions and
return structured payloads with a null sentiment, which
`crud.create_sentiment` normalizes into the stored row. -/

/-- A Python exception, abstracted to its message string. -/
abbrev PyErr := String

/-- The polarity scores delivered by the VADER analyzer. -/
structure VaderScores where
  pos : ℚ
  neu : ℚ
  neg : ℚ
  compound : ℚ
deriving Repr, DecidableEq

/-- Model of `huggingface_service.analyze_sentiment`: thresholds the VADER compound
score (±0.05) into a label with the matching score as confidence (rounded to
3 digits); any exception from the analyzer yields the structured error
payload with `sentiment = None`, `confidence = 0.0`. -/
def vader_analyze_sentiment : Except PyErr VaderScores → SentDict
  | .ok s =>
    if s.compound ≥ 1/20 then
      ⟨"vader", some "POSITIVE", some (pyRoundTo 3 s.pos)⟩
    else if s.compound ≤ -(1/20) then
      ⟨"vader", some "NEGATIVE", some (pyRoundTo 3 s.neg)⟩
    else
      ⟨"vader", some "NEUTRAL", some (pyRoundTo 3 s.neu)⟩
  | .error _ => ⟨"vader", none, some 0⟩

/-- The fields of a parsed Gemini JSON response that feed the sentiment
record (`parsed.get("sentiment")`, the coerced numeric `confidence`). -/
structure GeminiParsed where
  sentiment : Option String
  confidence : ℚ
deriving Repr, DecidableEq

/-- Model of `gemini_service.analyze_sentiment_advanced` with a configured key: the
generate/parse round trip either yields a parsed response — whose falsy
`sentiment` field is normalized to `None` — or raises, in which case the
structured failure payload (`sentiment = None`, `confidence = 0.0`) is
returned. -/
def gemini_analyze_sentiment_advanced : Except PyErr GeminiParsed → SentDict
  | .ok p =>
    ⟨"gemini",
     (match p.sentiment with
      | none => none
      | some s => if s = "" then none else some s),
     some p.confidence⟩
  | .error _ => ⟨"gemini", none, some 0⟩

/-- The row stored by `crud.create_sentiment` (its fusion-relevant columns). -/
structure StoredSentiment where
  model_name : String
  sentiment : String
  confidence : ℚ
deriving Repr, DecidableEq

/-- Model of `crud.create_sentiment`: a `None` sentiment is marked `UNKNOWN` so DB
constraints are satisfied; a missing/`None` confidence becomes 0.0. -/
def create_sentiment (p : SentDict) : StoredSentiment :=
  { model_name := p.model_name
    sentiment := p.sentiment.getD "UNKNOWN"
    confidence := p.confidence.getD 0 }

/-! ## The item processing worker (`pipeline.process_video_streaming`)

One call processes one video; every collaborator/database outcome it consumes
is supplied by `WorkerEnv`.  Steps whose failures the source catches locally
(`try/except` around transcription, transcript save, each sentiment model,
entities, the whole comments section) are `Except`-valued and converted to
degraded state; the three bare database operations (the initial query, the
video insert, and `update_video_scores`, whose handler re-raises) are the
only points where the body itself can fail. -/

/-- The merged `video_data` dict a worker receives: identity fields plus the
metric fields consumed by `calculate_impact_score`. -/
structure VideoData where
  video_id : String
  title : String
  metrics : VideoMetrics

/-- What the `asyncio.wait_for(... transcribe_video ...)` step delivers. -/
inductive TranscribeOutcome
  /-- The call returned a dict `{status, text, error}`. -/
  | result (status : String) (text : Option String) (err : Option String)
  /-- Model of `asyncio.TimeoutError` from the 600 s ceiling. -/
  | timedOut
  /-- Any other exception from the call. -/
  | raised (msg : PyErr)
deriving Repr, DecidableEq

/-- The classification block of the transcription step: the stored
`transcription_status` and the transcript text carried forward (`None`
whenever the status is not a success with truthy text). -/
def classifyTranscription : TranscribeOutcome → String × Option String
  | .result status text _ =>
    match text with
    | some t =>
      if status = "success" ∧ t ≠ "" then ("success", some t)
      else if status = "timeout" then ("timeout", none)
      else ("failed", none)
    | none =>
      if status = "timeout" then ("timeout", none)
      else ("failed", none)
  | .timedOut => ("timeout", none)
  | .raised _ => ("failed", none)

/-- Collaborator and database outcomes for one `process_video_streaming`
call.  `geminiCollab` is carried for completeness, but the streaming worker
never reaches the Gemini collaborator: the call at pipeline.py lines 449–454
passes keyword arguments `retry_count`/`max_retries` that
`gemini_service.analyze_sentiment_advanced(text, title="")` does not accept,
so it raises `TypeError` inside the `try` block and is caught, leaving
`gemini_sentiment = None` and storing no record.  `commentsPhase` likewise
has no modelled effect: the whole comments section is wrapped in its own
`try/except` and writes only comment rows. -/
structure WorkerEnv where
  existing : Except PyErr (Option (Option ℚ))
  createVideo : Except PyErr Unit
  transcribe : TranscribeOutcome
  saveTranscript : Except PyErr Unit
  vaderCollab : Except PyErr VaderScores
  saveVader : Except PyErr Unit
  geminiCollab : Except PyErr GeminiParsed
  entities : Except PyErr String
  commentsPhase : Except PyErr Unit
  saveScores : Except PyErr Unit

/-- The dict `{"success": ..., "message": ...}` a worker returns. -/
structure Summary where
  success : Bool
  message : String
deriving Repr, DecidableEq

/-- The observable effects of one worker run that reached the end of its
body. -/
structure WorkerRun where
  reusedFromCache : Bool
  videoCreated : Bool
  transcription_status : Option String
  transcriptSaved : Bool
  sentiments : List StoredSentiment
  hf_sentiment : Option SentDict
  gemini_sentiment : Option SentDict
  entitiesSaved : Bool
  scores : Option ImpactScores
  overall : Option String × Bool
  scoresSaved : Bool
  summary : Summary

/-- Model of `if existing_video and existing_video.impact_score is not None`. -/
def existingHasImpact : Option (Option ℚ) → Bool
  | some (some _) => true
  | _ => false

def isOk {ε α : Type} : Except ε α → Bool
  | .ok _ => true
  | .error _ => false

/-- The tail of the worker body from the impact-score step on: build
`sentiment_data` from whatever model payloads exist, compute the scores,
fuse the overall sentiment only when both models answered, then persist via
`update_video_scores` — whose failure is re-raised (`except: db.rollback();
raise`). -/
noncomputable def workerImpactStep (env : WorkerEnv) (vd : VideoData)
    (video_num : ℕ) (tstatus : String) (transcriptSaved : Bool)
    (recs : List StoredSentiment) (hf gem : Option SentDict)
    (entitiesSaved : Bool) : Except PyErr WorkerRun :=
  let sentiment_data : Option SentimentData :=
    if hf = none ∧ gem = none then none else some ⟨hf, gem⟩
  let scores := calculate_impact_score vd.metrics sentiment_data
  let overall :=
    if hf ≠ none ∧ gem ≠ none then determine_overall_sentiment hf gem
    else (none, false)
  match env.saveScores with
  | .error e => .error e
  | .ok _ => .ok
    { reusedFromCache := false
      videoCreated := true
      transcription_status := some tstatus
      transcriptSaved := transcriptSaved
      sentiments := recs
      hf_sentiment := hf
      gemini_sentiment := gem
      entitiesSaved := entitiesSaved
      scores := some scores
      overall := overall
      scoresSaved := true
      summary := ⟨true, "Video " ++ toString video_num
        ++ " processed successfully"⟩ }

/-- The worker body (everything inside the outer `try` of
`process_video_streaming`). -/
noncomputable def processVideoRun (env : WorkerEnv) (vd : VideoData)
    (video_num : ℕ) : Except PyErr WorkerRun :=
  match env.existing with
  | .error e => .error e
  | .ok existing =>
    if existingHasImpact existing then .ok
      { reusedFromCache := true
        videoCreated := false
        transcription_status := none
        transcriptSaved := false
        sentiments := []
        hf_sentiment := none
        gemini_sentiment := none
        entitiesSaved := false
        scores := none
        overall := (none, false)
        scoresSaved := false
        summary := ⟨true, "Video " ++ toString video_num
          ++ " reused from cache"⟩ }
    else
      match env.createVideo with
      | .error e => .error e
      | .ok _ =>
        let ts := classifyTranscription env.transcribe
        match ts.2 with
        | some _transcript_text =>
          let transcriptSaved := isOk env.saveTranscript
          let hf := vader_analyze_sentiment env.vaderCollab
          let vaderRecords : List StoredSentiment :=
            match env.saveVader with
            | .ok _ => [create_sentiment hf]
            | .error _ => []
          -- Gemini block: the call itself raises `TypeError` (unsupported
          -- kwargs) before the collaborator runs; the `except` leaves
          -- `gemini_sentiment = None` and no record is stored.
          let gem : Option SentDict := none
          let entitiesSaved := isOk env.entities
          workerImpactStep env vd video_num ts.1 transcriptSaved
            vaderRecords (some hf) gem entitiesSaved
        | none =>
          workerImpactStep env vd video_num ts.1 false [] none none false

/-- The failure dict of the worker's outer `except`:
`{"success": False, "message": f"Video {video_num} failed: {str(e)[:50]}"}`. -/
def workerFailSummary (video_num : ℕ) (e : PyErr) : Summary :=
  ⟨false, "Video " ++ toString video_num ++ " failed: " ++ e.take 50⟩

/-- Model of `pipeline.process_video_streaming`: body plus the outer catch-all — a
summary dict for every input, never an exception. -/
noncomputable def process_video_streaming (env : WorkerEnv) (vd : VideoData)
    (video_num : ℕ) (total_videos : ℕ) : Summary :=
  match processVideoRun env vd video_num with
  | .ok r => r.summary
  | .error e => workerFailSummary video_num e

/-! ## The topic analysis orchestrator (`pipeline.analyze_topic_streaming`)

The orchestrator run is a function of an environment of collaborator
outcomes.  Each per-video task (`process_video_with_session`, which runs the
worker on a fresh session) is an oracle delivering the rows it committed and
its outcome — `Except`-valued because the `task.result()` loop guards each
task with its own `try/except`.  The trace `calls` records which collaborator
families were invoked; the database is modelled by the topic row and the
video rows committed by the tasks. -/

/-- Model of `cache_service.topic_search_key`:
`f"topic_search:{topic_name.lower().strip()}"`. -/
def topic_search_key (topic_name : String) : String :=
  "topic_search:" ++ pyStrip (pyLower topic_name)

/-- The summary dict the orchestrator caches for a topic (the counters the
cache-hit path restores). -/
structure CacheData where
  total_videos : ℕ
  total_articles : ℕ
  overall_impact_score : Option ℚ
  overall_sentiment : Option String
deriving Repr, DecidableEq

/-- A video search result stub (the fields the orchestrator consults). -/
structure VideoIn where
  video_id : String
  title : String
deriving Repr, DecidableEq

/-- One entry of `get_video_details`. -/
structure VideoDetail where
  video_id : String
  is_valid : Bool
deriving Repr, DecidableEq

/-- A news article stub (the field the aggregation consults). -/
structure ArticleIn where
  source : Option String
deriving Repr, DecidableEq

/-- A committed video row as the aggregation reads it back
(`impact_score`, and the `sentiment` column of its sentiment rows in
insertion order). -/
structure VideoRow where
  impact_score : Option ℚ
  sentiments : List String
deriving Repr, DecidableEq

/-- One per-video task: the rows it committed for this topic, and the
task-level outcome (`Except` because a raising task is caught at the
`task.result()` site). -/
structure TaskOutcome where
  rows : List VideoRow
  outcome : Except PyErr Summary

/-- The topic row (the columns the orchestrator writes). -/
structure TopicRow where
  analysis_status : String
  error_message : Option String
  videos_found : Option ℕ
  articles_found : Option ℕ
  total_videos : Option ℕ
  total_articles : Option ℕ
  unique_sources_count : Option ℕ
  overall_impact_score : Option ℚ
  overall_sentiment : Option String
deriving Repr, DecidableEq

/-- Which collaborator families a run invoked. -/
inductive CallTag
  | videoSearch
  | videoDetails
  | channelInfo
  | workerDispatch
  | newsSearch
  | articleSummarize
deriving Repr, DecidableEq

/-- Environment of one `analyze_topic_streaming` run. -/
structure OrchEnv where
  cacheStore : String → Option CacheData
  apiKey : Bool
  search : Except PyErr (List VideoIn)
  details : Except PyErr (List VideoDetail)
  channels : Except PyErr Unit
  workerTask : ℕ → TaskOutcome
  recentNews : Except PyErr (List ArticleIn)
  historicalNews : Except PyErr (List ArticleIn)
  articleStep : ℕ → Except PyErr Unit

/-- The observable outcome of one run. -/
structure OrchResult where
  topic : TopicRow
  results : List Summary
  cacheWrites : List (String × CacheData)
  calls : List CallTag

/-- Model of `crud.update_topic_status`: sets the status and — only when the message
is truthy — the error message. -/
def update_topic_status (t : TopicRow) (status : String)
    (err : Option String) : TopicRow :=
  { t with
    analysis_status := status
    error_message :=
      match err with
      | some m => if m = "" then t.error_message else some m
      | none => t.error_message }

/-- Model of `Counter(filtered).most_common(1)[0][0]` (`None` on an empty list):
`collections.Counter` counts with first-occurrence insertion order, and
`most_common` sorts by count with a stable descending sort, so the winner is
the first element of the list attaining the maximal count — `List.argmax`
over the count. -/
def mostCommon1 (l : List String) : Option String :=
  l.argmax fun a => l.count a

/-- The `filtered` list of the aggregation:
`[s for s in sentiments if s and str(s).upper() != 'UNKNOWN']`. -/
def filteredSentiments (sentiments : List String) : List String :=
  sentiments.filter fun s => ¬ s = "" ∧ ¬ pyUpper s = "UNKNOWN"

/-- The valid details kept: `[vd for vd in video_details if
vd.get("is_valid", False)][:5]`. -/
def validDetails (details : List VideoDetail) : List VideoDetail :=
  (details.filter fun d => d.is_valid).take 5

/-- The merge step: the searched videos whose id appears among the kept
valid details (order of the original search preserved). -/
def dispatchedVideos (videos : List VideoIn) (details : List VideoDetail) :
    List VideoIn :=
  videos.filter fun v =>
    ((validDetails details).map fun d => d.video_id).contains v.video_id

/-- The combined `all_articles = recent_articles + historical_articles`;
each news call is guarded by its own `try/except` defaulting to `[]`. -/
def newsArticles (env : OrchEnv) : List ArticleIn :=
  (match env.recentNews with
   | .ok l => l
   | .error _ => []) ++
  (match env.historicalNews with
   | .ok l => l
   | .error _ => [])

/-- The per-task summaries as gathered at the fan-out site: a task whose
`task.result()` raises contributes `{"success": False, "message": str(e)}`
without disturbing the loop. -/
def gatherResults (tasks : ℕ → TaskOutcome) (n : ℕ) : List Summary :=
  (List.range n).map fun i =>
    match (tasks i).outcome with
    | .ok s => s
    | .error e => ⟨false, e⟩

/-- The video rows committed by the tasks, as `get_videos_by_topic` reads
them back. -/
def gatheredRows (tasks : ℕ → TaskOutcome) (n : ℕ) : List VideoRow :=
  ((List.range n).map fun i => (tasks i).rows).flatten

/-- Model of `len(set(a.get("source", "") for a in all_articles if a.get("source")))`. -/
def uniqueSourceCount (articles : List ArticleIn) : ℕ :=
  ((articles.filterMap fun a =>
    match a.source with
    | some s => if s = "" then none else some s
    | none => none)).dedup.length

/-- The final statistics written on the non-cached completion path, and the
summary stored in the cache. -/
def aggregateTopic (t : TopicRow) (origVideoCount : ℕ)
    (dispatched : ℕ) (articles : List ArticleIn) (rows : List VideoRow) :
    TopicRow :=
  let impacts := rows.filterMap fun r => r.impact_score
  let sentiments := rows.filterMap fun r => r.sentiments.head?
  { t with
    videos_found := some origVideoCount
    articles_found := some articles.length
    total_videos := some dispatched
    total_articles := some articles.length
    unique_sources_count := some (uniqueSourceCount articles)
    overall_impact_score :=
      if impacts = [] then t.overall_impact_score
      else some (impacts.sum / impacts.length)
    overall_sentiment := mostCommon1 (filteredSentiments sentiments)
    analysis_status := "completed" }

/-- Model of `pipeline.analyze_topic_streaming` on topic row `t0`: status to
`processing`; cache check (hit short-circuits to `completed` with the cached
counters); API-key check (`raise ValueError` → outer except → `failed`);
video search, details and validity filter, channel info — a raise in any of
these reaches the outer except and flips the topic to `failed`; the parallel
fan-out whose task failures are caught one by one; news search and the
per-article summarize loop, all failures caught locally; final aggregation,
`completed`, and the cache write (TTL 900 s). -/
def analyze_topic_streaming (env : OrchEnv) (topic_name : String)
    (t0 : TopicRow) : OrchResult :=
  let t1 := update_topic_status t0 "processing" none
  match env.cacheStore (topic_search_key topic_name) with
  | some cached =>
    { topic := { t1 with
        total_videos := some cached.total_videos
        total_articles := some cached.total_articles
        overall_impact_score := cached.overall_impact_score
        overall_sentiment := cached.overall_sentiment
        analysis_status := "completed" }
      results := []
      cacheWrites := []
      calls := [] }
  | none =>
    if ¬ env.apiKey then
      { topic := update_topic_status t1 "failed"
          (some "YOUTUBE_API_KEY not set")
        results := [], cacheWrites := [], calls := [] }
    else
      match env.search with
      | .error e =>
        { topic := update_topic_status t1 "failed" (some e)
          results := [], cacheWrites := [], calls := [.videoSearch] }
      | .ok videos =>
        if videos = [] then
          { topic := update_topic_status t1 "completed"
              (some "No videos found")
            results := [], cacheWrites := [], calls := [.videoSearch] }
        else
          match env.details with
          | .error e =>
            { topic := update_topic_status t1 "failed" (some e)
              results := [], cacheWrites := []
              calls := [.videoSearch, .videoDetails] }
          | .ok details =>
            if validDetails details = [] then
              { topic := update_topic_status t1 "completed"
                  (some "No valid videos found")
                results := [], cacheWrites := []
                calls := [.videoSearch, .videoDetails] }
            else
              match env.channels with
              | .error e =>
                { topic := update_topic_status t1 "failed" (some e)
                  results := [], cacheWrites := []
                  calls := [.videoSearch, .videoDetails, .channelInfo] }
              | .ok _ =>
                let dispatched := dispatchedVideos videos details
                let results := gatherResults env.workerTask dispatched.length
                let rows := gatheredRows env.workerTask dispatched.length
                let all_articles := newsArticles env
                let tFinal := aggregateTopic t1 videos.length
                  dispatched.length all_articles rows
                { topic := tFinal
                  results := results
                  cacheWrites := [(topic_search_key topic_name,
                    { total_videos := dispatched.length
                      total_articles := all_articles.length
                      overall_impact_score := tFinal.overall_impact_score
                      overall_sentiment := tFinal.overall_sentiment })]
                  calls := [.videoSearch, .videoDetails, .channelInfo]
                    ++ ((List.range dispatched.length).map
                        fun _ => .workerDispatch)
                    ++ [.newsSearch, .newsSearch]
                    ++ ((List.range all_articles.length).map
                        fun _ => .articleSummarize) }

/-! ## Concrete environments for witnesses and counterexamples -/

/-- A freshly created topic row (`analysis_status="pending"`). -/
def emptyTopic : TopicRow :=
  ⟨"pending", none, none, none, none, none, none, none, none⟩

/-- A benign environment: cache miss, key configured, all collaborators
healthy and empty. -/
def baseEnv : OrchEnv :=
  { cacheStore := fun _ => none
    apiKey := true
    search := .ok []
    details := .ok []
    channels := .ok ()
    workerTask := fun _ => ⟨[], .ok ⟨true, "ok"⟩⟩
    recentNews := .ok []
    historicalNews := .ok []
    articleStep := fun _ => .ok () }

/-- C3: if the TTL cache holds a summary under the normalized topic key, a
run short-circuits to status `completed`, reproduces exactly the cached
counters, and invokes no collaborator (empty call trace — in particular no
video search, details, channel, worker, news or summarize call). -/
theorem claim_C3_cache_hit_short_circuit (env : OrchEnv) (name : String)
    (t0 : TopicRow) (d : CacheData)
    (h : env.cacheStore (topic_search_key name) = some d) :
    (analyze_topic_streaming env name t0).topic.analysis_status = "completed" ∧
    (analyze_topic_streaming env name t0).topic.total_videos
      = some d.total_videos ∧
    (analyze_topic_streaming env name t0).topic.total_articles
      = some d.total_articles ∧
    (analyze_topic_streaming env name t0).topic.overall_impact_score
      = d.overall_impact_score ∧
    (analyze_topic_streaming env name t0).topic.overall_sentiment
      = d.overall_sentiment ∧
    (analyze_topic_streaming env name t0).calls = [] := by
  unfold analyze_topic_streaming
  rw [h]
  exact ⟨rfl, rfl, rfl, rfl, rfl, rfl⟩

/-- The cached summary used by the C3 witness. -/
def cachedSummary : CacheData := ⟨5, 4, some 7, some "POSITIVE"⟩

/-- A cache holding `cachedSummary` under the normalized key of
`" Electric Vehicles "`. -/
def cacheHitEnv : OrchEnv :=
  { baseEnv with cacheStore := fun k =>
      if k = "topic_search:electric vehicles" then some cachedSummary
      else none }

/-- C3 witness: the cached summary is reproduced exactly with no
collaborator call. -/
theorem claim_C3_cache_hit_witness :
    (analyze_topic_streaming cacheHitEnv " Electric Vehicles "
      emptyTopic).topic.analysis_status = "completed" ∧
    (analyze_topic_streaming cacheHitEnv " Electric Vehicles "
      emptyTopic).topic.total_videos = some 5 ∧
    (analyze_topic_streaming cacheHitEnv " Electric Vehicles "
      emptyTopic).topic.overall_sentiment = some "POSITIVE" ∧
    (analyze_topic_streaming cacheHitEnv " Electric Vehicles "
      emptyTopic).calls = [] := by
  have h := claim_C3_cache_hit_short_circuit cacheHitEnv
    " Electric Vehicles " emptyTopic cachedSummary (by decide)
  exact ⟨h.1, h.2.1, h.2.2.2.2.1, h.2.2.2.2.2⟩

/-- C5 (counterexample): with a cache miss, a configured key and an empty
initial video search, the run aborts with status `completed` (error message
`"No videos found"`), not `failed` as claimed. -/
theorem claim_C5_counterexample :
    (analyze_topic_streaming baseEnv "ev" emptyTopic).topic.analysis_status
      = "completed" ∧
    (analyze_topic_streaming baseEnv "ev" emptyTopic).topic.analysis_status
      ≠ "failed" ∧
    (analyze_topic_streaming baseEnv "ev" emptyTopic).topic.error_message
      = some "No videos found" := by
  refine ⟨by decide, by decide, by decide⟩

/-- C5 (amended): an empty initial video search aborts the topic run —
no details, channel, worker, news or summarize call happens — and sets the
topic's status to `completed` with the error message `"No videos found"`
attached (the `FatalSetupError → failed` treatment of the spec applies to
missing credentials, not to an empty search). -/
theorem claim_C5_empty_search_aborts (env : OrchEnv) (name : String)
    (t0 : TopicRow)
    (hmiss : env.cacheStore (topic_search_key name) = none)
    (hkey : env.apiKey = true)
    (hsearch : env.search = .ok []) :
    (analyze_topic_streaming env name t0).topic.analysis_status
      = "completed" ∧
    (analyze_topic_streaming env name t0).topic.error_message
      = some "No videos found" ∧
    (analyze_topic_streaming env name t0).calls = [.videoSearch] ∧
    (analyze_topic_streaming env name t0).results = [] ∧
    (analyze_topic_streaming env name t0).cacheWrites = [] := by
  simp [analyze_topic_streaming, hmiss, hkey, hsearch, update_topic_status]

/-- C5 witness: the amended behaviour at the concrete benign environment. -/
theorem claim_C5_empty_search_witness :
    (analyze_topic_streaming baseEnv "ev" emptyTopic).topic.analysis_status
      = "completed" ∧
    (analyze_topic_streaming baseEnv "ev" emptyTopic).topic.error_message
      = some "No videos found" ∧
    (analyze_topic_streaming baseEnv "ev" emptyTopic).calls
      = [.videoSearch] := by
  have h := claim_C5_empty_search_aborts baseEnv "ev" emptyTopic rfl rfl rfl
  exact ⟨h.1, h.2.1, h.2.2.1⟩

/-- The mode characterization of `mostCommon1`: the winner occurs in the
list, attains the maximal count, and among equal counts has the least index
(first encounter). -/
theorem mostCommon1_spec (l : List String) (r : String)
    (h : mostCommon1 l = some r) :
    r ∈ l ∧ (∀ s ∈ l, l.count s ≤ l.count r) ∧
    (∀ s ∈ l, l.count s = l.count r → l.indexOf r ≤ l.indexOf s) := by
  unfold mostCommon1 at h
  have hmem : r ∈ l.argmax fun a => l.count a := h ▸ rfl
  refine ⟨List.argmax_mem hmem, ?_, ?_⟩
  · intro s hs
    exact List.le_of_mem_argmax hs hmem
  · intro s hs hcnt
    exact List.index_of_argmax hmem hs (le_of_eq hcnt.symm)

/-- C7 (amended): on the non-cached completion path the orchestrator writes
status `completed`, sets the topic's video counter to the number of
*dispatched* valid items (not the count of successfully processed ones),
sets `overall_impact_score` to the arithmetic mean of the non-null per-item
impact scores when at least one exists (leaving it untouched otherwise),
sets `overall_sentiment` to the most common non-UNKNOWN per-item sentiment
with ties broken by first encounter, and stores exactly these counters in
the TTL cache under the normalized topic key. -/
theorem claim_C7_completion_aggregation (env : OrchEnv) (name : String)
    (t0 : TopicRow) (videos : List VideoIn) (details : List VideoDetail)
    (hmiss : env.cacheStore (topic_search_key name) = none)
    (hkey : env.apiKey = true)
    (hsearch : env.search = .ok videos) (hne : videos ≠ [])
    (hdetails : env.details = .ok details)
    (hvalid : validDetails details ≠ [])
    (hch : env.channels = .ok ()) :
    (analyze_topic_streaming env name t0).topic.analysis_status
      = "completed" ∧
    (analyze_topic_streaming env name t0).topic.total_videos
      = some (dispatchedVideos videos details).length ∧
    (analyze_topic_streaming env name t0).topic.total_articles
      = some (newsArticles env).length ∧
    (analyze_topic_streaming env name t0).topic.overall_impact_score
      = (if ((gatheredRows env.workerTask
            (dispatchedVideos videos details).length).filterMap
            (fun r => r.impact_score)) = [] then t0.overall_impact_score
         else some (((gatheredRows env.workerTask
            (dispatchedVideos videos details).length).filterMap
            (fun r => r.impact_score)).sum
          / ((gatheredRows env.workerTask
            (dispatchedVideos videos details).length).filterMap
            (fun r => r.impact_score)).length)) ∧
    (analyze_topic_streaming env name t0).topic.overall_sentiment
      = mostCommon1 (filteredSentiments ((gatheredRows env.workerTask
          (dispatchedVideos videos details).length).filterMap
          (fun r => r.sentiments.head?))) ∧
    (∀ r, mostCommon1 (filteredSentiments ((gatheredRows env.workerTask
          (dispatchedVideos videos details).length).filterMap
          (fun r => r.sentiments.head?))) = some r →
      r ∈ filteredSentiments ((gatheredRows env.workerTask
          (dispatchedVideos videos details).length).filterMap
          (fun r => r.sentiments.head?)) ∧
      (∀ s ∈ filteredSentiments ((gatheredRows env.workerTask
          (dispatchedVideos videos details).length).filterMap
          (fun r => r.sentiments.head?)),
        (filteredSentiments ((gatheredRows env.workerTask
          (dispatchedVideos videos details).length).filterMap
          (fun r => r.sentiments.head?))).count s
          ≤ (filteredSentiments ((gatheredRows env.workerTask
          (dispatchedVideos videos details).length).filterMap
          (fun r => r.sentiments.head?))).count r) ∧
      (∀ s ∈ filteredSentiments ((gatheredRows env.workerTask
          (dispatchedVideos videos details).length).filterMap
          (fun r => r.sentiments.head?)),
        (filteredSentiments ((gatheredRows env.workerTask
          (dispatchedVideos videos details).length).filterMap
          (fun r => r.sentiments.head?))).count s
          = (filteredSentiments ((gatheredRows env.workerTask
          (dispatchedVideos videos details).length).filterMap
          (fun r => r.sentiments.head?))).count r →
        (filteredSentiments ((gatheredRows env.workerTask
          (dispatchedVideos videos details).length).filterMap
          (fun r => r.sentiments.head?))).indexOf r
          ≤ (filteredSentiments ((gatheredRows env.workerTask
          (dispatchedVideos videos details).length).filterMap
          (fun r => r.sentiments.head?))).indexOf s)) ∧
    (analyze_topic_streaming env name t0).cacheWrites
      = [(topic_search_key name,
          { total_videos := (dispatchedVideos videos details).length
            total_articles := (newsArticles env).length
            overall_impact_score :=
              if ((gatheredRows env.workerTask
                  (dispatchedVideos videos details).length).filterMap
                  (fun r => r.impact_score)) = [] then t0.overall_impact_score
              else some (((gatheredRows env.workerTask
                  (dispatchedVideos videos details).length).filterMap
                  (fun r => r.impact_score)).sum
                / ((gatheredRows env.workerTask
                  (dispatchedVideos videos details).length).filterMap
                  (fun r => r.impact_score)).length)
            overall_sentiment := mostCommon1 (filteredSentiments
              ((gatheredRows env.workerTask
                (dispatchedVideos videos details).length).filterMap
                (fun r => r.sentiments.head?))) })] := by
  have hfuse : ∀ r, mostCommon1 (filteredSentiments ((gatheredRows
      env.workerTask (dispatchedVideos videos details).length).filterMap
      (fun r => r.sentiments.head?))) = some r →
      _ := fun r hr => mostCommon1_spec _ r hr
  simp only [analyze_topic_streaming, hmiss, hkey, hsearch, hdetails, hch]
  simp only [eq_self_iff_true, not_true, if_false, if_neg hne, if_neg hvalid]
  simp only [aggregateTopic, update_topic_status]
  exact ⟨trivial, trivial, trivial, trivial, trivial, hfuse, trivial⟩

/-- An environment with two dispatched videos whose first worker task raises
and whose second succeeds with one committed row. -/
def oneFailEnv : OrchEnv :=
  { baseEnv with
    search := .ok [⟨"a", "A"⟩, ⟨"b", "B"⟩]
    details := .ok [⟨"a", true⟩, ⟨"b", true⟩]
    workerTask := fun i =>
      if i = 0 then ⟨[], .error "boom"⟩
      else ⟨[⟨some 5, ["POSITIVE"]⟩], .ok ⟨true, "ok"⟩⟩ }

/-- C7 (counterexample): with two dispatched videos of which one worker
fails, the orchestrator writes `total_videos = 2` — the dispatched count —
while the count of successfully processed items is 1, refuting the claim
that the counter holds the success count. -/
theorem claim_C7_counterexample :
    (analyze_topic_streaming oneFailEnv "ev" emptyTopic).topic.total_videos
      = some 2 ∧
    ((analyze_topic_streaming oneFailEnv "ev" emptyTopic).results.filter
      (fun s => s.success)).length = 1 ∧
    (2 : ℕ) ≠ 1 := by
  refine ⟨by decide, by decide, by decide⟩

/-- An environment with one dispatched video whose worker succeeds. -/
def oneGoodEnv : OrchEnv :=
  { baseEnv with
    search := .ok [⟨"a", "A"⟩]
    details := .ok [⟨"a", true⟩]
    workerTask := fun _ => ⟨[⟨some 5, ["POSITIVE"]⟩], .ok ⟨true, "ok"⟩⟩ }

/-- C7 witness: the amended aggregation at a concrete single-video run. -/
theorem claim_C7_completion_witness :
    (analyze_topic_streaming oneGoodEnv "ev" emptyTopic).topic.analysis_status
      = "completed" ∧
    (analyze_topic_streaming oneGoodEnv "ev" emptyTopic).topic.total_videos
      = some (dispatchedVideos [⟨"a", "A"⟩] [⟨"a", true⟩]).length ∧
    (analyze_topic_streaming oneGoodEnv "ev" emptyTopic).topic.overall_sentiment
      = mostCommon1 (filteredSentiments ((gatheredRows oneGoodEnv.workerTask
          (dispatchedVideos [⟨"a", "A"⟩] [⟨"a", true⟩]).length).filterMap
          (fun r => r.sentiments.head?))) ∧
    (analyze_topic_streaming oneGoodEnv "ev" emptyTopic).topic.overall_sentiment
      = some "POSITIVE" := by
  have h := claim_C7_completion_aggregation oneGoodEnv "ev" emptyTopic
    [⟨"a", "A"⟩] [⟨"a", true⟩] rfl rfl rfl (by decide) rfl (by decide) rfl
  exact ⟨h.1, h.2.1, h.2.2.2.2.1, by decide⟩

/-- Replace the orchestrator's worker-task oracle. -/
def withTask (env : OrchEnv) (f : ℕ → TaskOutcome) : OrchEnv :=
  { env with workerTask := f }

/-- Point update of a task oracle. -/
def updateTask (f : ℕ → TaskOutcome) (j : ℕ) (w : TaskOutcome) :
    ℕ → TaskOutcome :=
  fun i => if i = j then w else f i

theorem gatherResults_congr (f g : ℕ → TaskOutcome) (n i : ℕ)
    (h : f i = g i) :
    (gatherResults f n)[i]? = (gatherResults g n)[i]? := by
  unfold gatherResults
  rw [List.getElem?_map, List.getElem?_map]
  by_cases hi : i < n
  · rw [List.getElem?_range hi]
    simp [h]
  · rw [List.getElem?_eq_none (by simpa [List.length_range] using hi)]
    rfl

/-- The worker-task oracle influences neither the branch taken nor the topic
status; and a run's `i`-th gathered summary depends only on the `i`-th
task. -/
theorem analyze_workerTask_frame (env : OrchEnv) (f : ℕ → TaskOutcome)
    (name : String) (t0 : TopicRow) :
    ((analyze_topic_streaming (withTask env f) name t0).topic.analysis_status
      = (analyze_topic_streaming env name t0).topic.analysis_status) ∧
    (∀ i, f i = env.workerTask i →
      (analyze_topic_streaming (withTask env f) name t0).results[i]?
        = (analyze_topic_streaming env name t0).results[i]?) := by
  rcases hc : env.cacheStore (topic_search_key name) with _ | d
  case some =>
    simp [analyze_topic_streaming, withTask, hc]
  case none =>
    by_cases hk : env.apiKey = true
    case neg =>
      simp [analyze_topic_streaming, withTask, hc, hk]
    case pos =>
      cases hs : env.search with
      | error e =>
        simp [analyze_topic_streaming, withTask, hc, hk, hs]
      | ok videos =>
        by_cases hv : videos = []
        case pos =>
          simp [analyze_topic_streaming, withTask, hc, hk, hs, hv]
        case neg =>
          cases hd : env.details with
          | error e =>
            simp [analyze_topic_streaming, withTask, hc, hk, hs, hv, hd]
          | ok details =>
            by_cases hvd : validDetails details = []
            case pos =>
              simp [analyze_topic_streaming, withTask, hc, hk, hs, hv, hd, hvd]
            case neg =>
              cases hch : env.channels with
              | error e =>
                simp [analyze_topic_streaming, withTask, hc, hk, hs, hv, hd,
                  hvd, hch]
              | ok u =>
                constructor
                · simp [analyze_topic_streaming, withTask, hc, hk, hs, hv,
                    hd, hvd, hch, aggregateTopic]
                · intro i hfi
                  simp only [analyze_topic_streaming, withTask, hc, hk, hs,
                    hv, hd, hvd, hch]
                  exact gatherResults_congr f env.workerTask
                    (dispatchedVideos videos details).length i hfi

/-- C4: the per-item worker returns a success/failure summary for every
input and never raises to its caller — a body that fails with exception `e`
surfaces as the failure dict `{"success": False, "message": "Video n failed:
str(e)[:50]"}` — and consequently, at the fan-out site, replacing the `j`-th
task by anything (including a raising one) leaves every sibling's gathered
result unchanged and cannot change the topic's final status (in particular
it cannot move the topic to `failed`). -/
theorem claim_C4_worker_isolation :
    (∀ (env : WorkerEnv) (vd : VideoData) (n tot : ℕ) (e : PyErr),
      processVideoRun env vd n = .error e →
      process_video_streaming env vd n tot = workerFailSummary n e) ∧
    (∀ (env : OrchEnv) (name : String) (t0 : TopicRow) (j : ℕ)
      (w : TaskOutcome) (i : ℕ), i ≠ j →
      (analyze_topic_streaming
          (withTask env (updateTask env.workerTask j w)) name t0).results[i]?
        = (analyze_topic_streaming env name t0).results[i]?) ∧
    (∀ (env : OrchEnv) (name : String) (t0 : TopicRow)
      (w1 w2 : ℕ → TaskOutcome),
      (analyze_topic_streaming (withTask env w1) name t0).topic.analysis_status
        = (analyze_topic_streaming
            (withTask env w2) name t0).topic.analysis_status) := by
  refine ⟨?_, ?_, ?_⟩
  · intro env vd n tot e h
    unfold process_video_streaming
    rw [h]
  · intro env name t0 j w i hij
    exact (analyze_workerTask_frame env (updateTask env.workerTask j w)
      name t0).2 i (by simp [updateTask, hij])
  · intro env name t0 w1 w2
    rw [(analyze_workerTask_frame env w1 name t0).1,
      (analyze_workerTask_frame env w2 name t0).1]

/-- A worker environment whose `update_video_scores` raises, making the
body fail after all degraded steps. -/
def failingScoresEnv : WorkerEnv :=
  { existing := .ok none
    createVideo := .ok ()
    transcribe := .raised "youtube unavailable"
    saveTranscript := .ok ()
    vaderCollab := .error "vader"
    saveVader := .ok ()
    geminiCollab := .error "gemini"
    entities := .ok ""
    commentsPhase := .ok ()
    saveScores := .error "db down" }

/-- A concrete worker `video_data`. -/
def vdSample : VideoData := ⟨"a", "A", ⟨0, 0, 0, 0, none⟩⟩

/-- C4 witness: the failing-body worker yields the failure dict rather than
an exception; sibling 1's gathered result survives a replacement of task 0
by a raising task; and the topic status is identical under two different
task oracles. -/
theorem claim_C4_worker_isolation_witness :
    process_video_streaming failingScoresEnv vdSample 1 5
      = workerFailSummary 1 "db down" ∧
    (analyze_topic_streaming
        (withTask oneFailEnv (updateTask oneFailEnv.workerTask 0
          ⟨[], .error "crash"⟩)) "ev" emptyTopic).results[1]?
      = (analyze_topic_streaming oneFailEnv "ev" emptyTopic).results[1]? ∧
    (analyze_topic_streaming (withTask baseEnv fun _ => ⟨[], .error "x"⟩)
        "ev" emptyTopic).topic.analysis_status
      = (analyze_topic_streaming (withTask baseEnv fun _ =>
          ⟨[], .ok ⟨true, "y"⟩⟩) "ev" emptyTopic).topic.analysis_status :=
  ⟨claim_C4_worker_isolation.1 failingScoresEnv vdSample 1 5 "db down" rfl,
   claim_C4_worker_isolation.2.1 oneFailEnv "ev" emptyTopic 0
     ⟨[], .error "crash"⟩ 1 (by decide),
   claim_C4_worker_isolation.2.2 baseEnv "ev" emptyTopic _ _⟩

/-- C6: what the code does around a failing sentiment model when transcript
content is present.  (i) The *intended* degradation chain exists and works:
a model collaborator's exception is caught inside its service, which returns
a payload with a null sentiment and zero confidence, and
`crud.create_sentiment` stores it as `(UNKNOWN, 0)` — proved for both the
VADER and the Gemini service.  (ii) In the streaming worker the chain holds
for VADER: a VADER collaborator exception still yields a stored
`("vader", UNKNOWN, 0)` record and the item completes with its scores saved.
(iii) But the streaming worker can never store any Gemini record at all —
for every environment, whatever the Gemini collaborator would do — because
the call site passes keyword arguments the service does not accept and dies
with `TypeError` before reaching the collaborator; this refutes the claim
for the (item, gemini) pair. -/
theorem claim_C6_model_failure_record :
    (∀ e : PyErr, create_sentiment (vader_analyze_sentiment (.error e))
      = ⟨"vader", "UNKNOWN", 0⟩) ∧
    (∀ e : PyErr,
      create_sentiment (gemini_analyze_sentiment_advanced (.error e))
      = ⟨"gemini", "UNKNOWN", 0⟩) ∧
    (∀ (env : WorkerEnv) (vd : VideoData) (n : ℕ) (t : String) (e : PyErr),
      classifyTranscription env.transcribe = ("success", some t) →
      env.existing = .ok none → env.createVideo = .ok () →
      env.vaderCollab = .error e → env.saveVader = .ok () →
      env.saveScores = .ok () →
      ∃ r : WorkerRun, processVideoRun env vd n = .ok r ∧
        r.sentiments = [⟨"vader", "UNKNOWN", 0⟩] ∧
        r.scoresSaved = true ∧ r.summary.success = true) ∧
    (∀ (env : WorkerEnv) (vd : VideoData) (n : ℕ) (r : WorkerRun),
      processVideoRun env vd n = .ok r →
      (∀ s ∈ r.sentiments, s.model_name ≠ "gemini") ∧
      r.gemini_sentiment = none) := by
  refine ⟨fun e => rfl, fun e => rfl, ?_, ?_⟩
  · intro env vd n t e ht hex hcr hv hsv hss
    unfold processVideoRun
    rw [hex, hcr, ht, hv, hsv]
    unfold workerImpactStep
    rw [hss]
    exact ⟨_, rfl, rfl, rfl, rfl⟩
  · intro env vd n r hr
    unfold processVideoRun at hr
    rcases hex : env.existing with e | existing <;> rw [hex] at hr <;>
      dsimp only at hr
    · exact absurd hr (by simp)
    · by_cases himp : existingHasImpact existing = true
      · rw [if_pos himp] at hr
        injection hr with hr
        subst hr
        exact ⟨by intro s hs; simp at hs, rfl⟩
      · rw [if_neg himp] at hr
        rcases hcr : env.createVideo with e | u <;> rw [hcr] at hr <;>
          dsimp only at hr
        · exact absurd hr (by simp)
        · rcases h2 : (classifyTranscription env.transcribe).2 with _ | t <;>
            rw [h2] at hr <;> dsimp only at hr <;>
            unfold workerImpactStep at hr <;> dsimp only at hr
          · rcases hss : env.saveScores with e | u2 <;> rw [hss] at hr <;>
              dsimp only at hr
            · exact absurd hr (by simp)
            · injection hr with hr
              subst hr
              exact ⟨by intro s hs; simp at hs, rfl⟩
          · rcases hss : env.saveScores with e | u2 <;> rw [hss] at hr <;>
              dsimp only at hr
            · exact absurd hr (by simp)
            · injection hr with hr
              subst hr
              refine ⟨?_, rfl⟩
              intro s hs
              rcases hsv : env.saveVader with e2 | u3 <;> rw [hsv] at hs <;>
                dsimp only at hs
              · simp at hs
              · simp only [List.mem_singleton] at hs
                subst hs
                unfold create_sentiment vader_analyze_sentiment
                rcases env.vaderCollab with sc | e3
                · simp
                · dsimp only
                  split_ifs <;> simp

/-- A worker environment with a transcript and a VADER collaborator that
raises; the Gemini collaborator is healthy, yet no Gemini record can be
stored. -/
def vaderFailEnv : WorkerEnv :=
  { existing := .ok none
    createVideo := .ok ()
    transcribe := .result "success" (some "great video about EVs") none
    saveTranscript := .ok ()
    vaderCollab := .error "VADER crashed"
    saveVader := .ok ()
    geminiCollab := .ok ⟨some "POSITIVE", 9/10⟩
    entities := .ok "[]"
    commentsPhase := .ok ()
    saveScores := .ok () }

/-- C6 witness: at `vaderFailEnv` the normalization chain yields the
`(UNKNOWN, 0)` rows, the item still completes with a stored
`("vader", UNKNOWN, 0)` record, and no Gemini record exists. -/
theorem claim_C6_model_failure_record_witness :
    create_sentiment (vader_analyze_sentiment (.error "VADER crashed"))
      = ⟨"vader", "UNKNOWN", 0⟩ ∧
    create_sentiment (gemini_analyze_sentiment_advanced (.error "quota"))
      = ⟨"gemini", "UNKNOWN", 0⟩ ∧
    (∃ r : WorkerRun, processVideoRun vaderFailEnv vdSample 1 = .ok r ∧
      r.sentiments = [⟨"vader", "UNKNOWN", 0⟩] ∧
      r.scoresSaved = true ∧ r.summary.success = true) := by
  refine ⟨claim_C6_model_failure_record.1 "VADER crashed",
    claim_C6_model_failure_record.2.1 "quota",
    claim_C6_model_failure_record.2.2.1 vaderFailEnv vdSample 1
      "great video about EVs" "VADER crashed" (by decide) rfl rfl rfl rfl rfl⟩

end ExplainNet
